import Mathlib

/-!
Verification development for the `smtp-honeypot` repository.

Strings are modelled as `List Char` (`Str`). Machine timestamps
(`std::time::Instant`) are modelled as naturals; the 60-second rate-limit
window is the constant `60` in the same unit. Logging and raw I/O are
dropped; everything else follows the Rust source (`src/ratelimiter.rs`,
`src/session.rs`, `src/honeypot.rs`) definition by definition.
-/

/-- Strings are modelled as lists of characters. -/
abbrev Str := List Char

/-- Coerce a Lean string literal into the `List Char` model. -/
def str (s : String) : Str := s.data

/-- Model of Rust's `char::is_whitespace` (the Unicode `White_Space` set),
used by `str::trim_end` and `str::split_whitespace`. -/
def isRustWhitespace (c : Char) : Bool :=
  (9 ≤ c.toNat && c.toNat ≤ 13) || c.toNat = 32 || c.toNat = 0x85 || c.toNat = 0xA0 ||
  c.toNat = 0x1680 || (0x2000 ≤ c.toNat && c.toNat ≤ 0x200A) ||
  c.toNat = 0x2028 || c.toNat = 0x2029 || c.toNat = 0x202F || c.toNat = 0x205F ||
  c.toNat = 0x3000

/-- Model of `str::trim_end`: drop trailing whitespace. -/
def trimEnd (s : Str) : Str := (s.reverse.dropWhile isRustWhitespace).reverse

/-- Accumulator-based worker for `splitWhitespace`. -/
def splitWSAux : Str → Str → List Str
  | [], acc => if acc = [] then [] else [acc.reverse]
  | c :: cs, acc =>
    if isRustWhitespace c then
      if acc = [] then splitWSAux cs [] else acc.reverse :: splitWSAux cs []
    else splitWSAux cs (c :: acc)

/-- Model of `str::split_whitespace`: maximal non-whitespace runs, in order. -/
def splitWhitespace (s : Str) : List Str := splitWSAux s []

/-- Model of `str::to_uppercase` restricted to its action on ASCII
(`Char.toUpper` maps `a`-`z` to `A`-`Z` and fixes everything else); the
honeypot only compares the result against ASCII keywords. -/
def toUppercase (s : Str) : Str := s.map Char.toUpper

/-- Model of `str::trim_matches(c)`: strip every leading and trailing `c`. -/
def trimMatches (c : Char) (s : Str) : Str :=
  ((s.dropWhile (fun x => x = c)).reverse.dropWhile (fun x => x = c)).reverse

/-- Model of `str::split_once(c)`: split at the first occurrence of `c`. -/
def splitOnce (c : Char) : Str → Option (Str × Str)
  | [] => none
  | x :: xs =>
    if x = c then some ([], xs)
    else (splitOnce c xs).map (fun p => (x :: p.1, p.2))

/-- Substring test (does `hay` contain `needle` as a contiguous run?). -/
def hasSubstring (needle : Str) : Str → Bool
  | [] => needle.isPrefixOf []
  | c :: t => needle.isPrefixOf (c :: t) || hasSubstring needle t

/-- Model of `Vec::join(sep)` for the body lines of a captured message. -/
def join_sep (sep : Str) : List Str → Str
  | [] => []
  | [x] => x
  | x :: xs => x ++ sep ++ join_sep sep xs

/-- `SmtpSession` from `src/session.rs` (field `data` holds `data_lines`). -/
structure SmtpSession where
  client_addr : Str
  helo : Option Str
  mail_from : Option Str
  rcpt_to : List Str
  data : List Str
  authenticated : Bool
  tls_active : Bool
  starttls_enabled : Bool
  expecting_data : Bool
deriving Repr, DecidableEq

/-- `SmtpSession::new` from `src/session.rs`. -/
def SmtpSession.new (client_addr : Str) (starttls_enabled : Bool) : SmtpSession :=
  { client_addr := client_addr
    helo := none
    mail_from := none
    rcpt_to := []
    data := []
    authenticated := false
    tls_active := false
    starttls_enabled := starttls_enabled
    expecting_data := false }

/-- `SmtpSession::reset` from `src/session.rs`. -/
def SmtpSession.reset (s : SmtpSession) : SmtpSession :=
  { s with mail_from := none, rcpt_to := [], data := [], expecting_data := false }

/-- The configuration fields of `Opt` (`src/main.rs`) that the honeypot core
reads (logging/daemon flags are dropped). -/
structure Opt where
  ports : List Nat
  address : Str
  domains : List Str
  valid_mailboxes : List Str
  open_relay : Bool
  helo : Str
  data_dir : Option Str
  max_connections_per_minute : Nat
  tls_cert : Option Str
  tls_key : Option Str
  banner_delay : Nat
  starttls : Bool
deriving Repr, DecidableEq

/-- `SmtpHoneypot` from `src/honeypot.rs`; `tls_acceptor : Option Unit`
stands for `Option<Arc<TlsAcceptor>>` (only its `is_some` is observed by the
protocol logic). -/
structure SmtpHoneypot where
  opt : Opt
  valid_mailboxes : List Str
  tls_acceptor : Option Unit
deriving Repr, DecidableEq

/-- `SmtpHoneypot::is_valid_recipient` from `src/honeypot.rs`. -/
def is_valid_recipient (h : SmtpHoneypot) (recipient : Str) : Bool :=
  if h.opt.open_relay then true
  else if h.valid_mailboxes.any (fun mb => mb = recipient) then true
  else
    match splitOnce '@' recipient with
    | some p => h.opt.domains.any (fun d => d = p.2)
    | none => false

/-- `SmtpHoneypot::process_command` from `src/honeypot.rs` (logging calls
dropped); returns the optional response plus the mutated session. -/
def process_command (h : SmtpHoneypot) (cmd_line : Str) (session : SmtpSession) :
    Option Str × SmtpSession :=
  match splitWhitespace cmd_line with
  | [] => (some (str "500 Syntax error\r\n"), session)
  | p0 :: rest =>
    let cmd := toUppercase p0
    if cmd = str "HELO" ∨ cmd = str "EHLO" then
      let helo_name := rest.headD (str "unknown")
      let response :=
        str "250-" ++ h.opt.helo ++ str " Hello " ++ helo_name ++ str "\r\n" ++
        (if session.starttls_enabled && !session.tls_active && h.tls_acceptor.isSome
          then str "250-STARTTLS\r\n" else []) ++
        str "250 HELP\r\n"
      (some response, { session with helo := some helo_name })
    else if cmd = str "STARTTLS" then
      if session.starttls_enabled && h.tls_acceptor.isSome && !session.tls_active then
        (some (str "220 Ready to start TLS\r\n"), session)
      else
        (some (str "454 TLS not available\r\n"), session)
    else if cmd = str "MAIL" then
      match rest with
      | [] => (some (str "501 Syntax error in parameters\r\n"), session)
      | p1 :: _ =>
        if (str "FROM:").isPrefixOf (toUppercase p1) then
          (some (str "250 OK\r\n"),
           { session with mail_from := some (trimMatches '>' (trimMatches '<' (p1.drop 5))) })
        else (some (str "501 Syntax error in parameters\r\n"), session)
    else if cmd = str "RCPT" then
      match rest with
      | [] => (some (str "501 Syntax error in parameters\r\n"), session)
      | p1 :: _ =>
        if (str "TO:").isPrefixOf (toUppercase p1) then
          if is_valid_recipient h (trimMatches '>' (trimMatches '<' (p1.drop 3))) then
            (some (str "250 OK\r\n"),
             { session with rcpt_to := session.rcpt_to ++ [trimMatches '>' (trimMatches '<' (p1.drop 3))] })
          else (some (str "550 No such user\r\n"), session)
        else (some (str "501 Syntax error in parameters\r\n"), session)
    else if cmd = str "DATA" then
      if session.mail_from.isNone || session.rcpt_to.isEmpty then
        (some (str "503 Bad sequence of commands\r\n"), session)
      else
        (some (str "354 Start mail input; end with <CRLF>.<CRLF>\r\n"), session)
    else if cmd = str "AUTH" then
      match rest with
      | [] => (some (str "504 Unrecognized authentication type\r\n"), session)
      | p1 :: _ =>
        if toUppercase p1 = str "LOGIN" then (some (str "334 VXNlcm5hbWU6\r\n"), session)
        else (some (str "235 Authentication successful\r\n"), session)
    else if cmd = str "QUIT" then (some (str "221 Bye\r\n"), session)
    else if cmd = str "RSET" then (some (str "250 OK\r\n"), SmtpSession.reset session)
    else if cmd = str "NOOP" then (some (str "250 OK\r\n"), session)
    else if cmd = str "VRFY" ∨ cmd = str "EXPN" then
      (some (str "252 Cannot verify user\r\n"), session)
    else (some (str "500 Command not recognized\r\n"), session)

/-- The pure content built by `SmtpHoneypot::save_email_data` in
`src/honeypot.rs` (the `Local::now()` date string is a parameter; the
sequence of `push_str` calls becomes one concatenation). -/
def email_content (client_addr dateStr : Str) (session : SmtpSession) : Str :=
  str "X-Honeypot-Client: " ++ client_addr ++ str "\r\n" ++
  (str "X-Honeypot-Date: " ++ dateStr ++ str "\r\n") ++
  (match session.helo with
   | some hl => str "X-Honeypot-HELO: " ++ hl ++ str "\r\n"
   | none => []) ++
  (match session.mail_from with
   | some mf => str "X-Honeypot-MailFrom: " ++ mf ++ str "\r\n"
   | none => []) ++
  (session.rcpt_to.map (fun r => str "X-Honeypot-RcptTo: " ++ r ++ str "\r\n")).flatten ++
  str "\r\n" ++
  join_sep (str "\r\n") session.data

/-- `SmtpHoneypot::save_email_data`: writes the artifact only when a data
directory is configured; `some content` records the written file's content. -/
def save_email_data (h : SmtpHoneypot) (dateStr client_addr : Str)
    (session : SmtpSession) : Option Str :=
  match h.opt.data_dir with
  | some _ => some (email_content client_addr dateStr session)
  | none => none

/-- Observable outcome of one iteration of the read/dispatch/write loop of
`handle_plain_stream` / `handle_tls_stream`: the updated session, the
responses written to the peer, the persistence-sink invocations, and whether
the loop breaks (QUIT). -/
structure StepOut where
  session : SmtpSession
  sent : List Str
  saved : List (Option Str)
  closed : Bool
deriving Repr, DecidableEq

/-- One `Ok(_)` iteration of the shared loop body of
`SmtpHoneypot::handle_plain_stream` and `handle_tls_stream`
(`src/honeypot.rs`): trim the raw line, capture body lines while
`expecting_data`, otherwise dispatch to `process_command`, then apply the
`221`-break and `354`-sets-`expecting_data` post-processing. -/
def handle_line (h : SmtpHoneypot) (dateStr : Str) (session : SmtpSession)
    (line : Str) : StepOut :=
  let cmd_line := trimEnd line
  if session.expecting_data then
    if cmd_line = str "." then
      { session := SmtpSession.reset { session with expecting_data := false }
        sent := [str "250 OK: Message accepted\r\n"]
        saved := [save_email_data h dateStr session.client_addr
                    { session with expecting_data := false }]
        closed := false }
    else
      { session := { session with data := session.data ++ [cmd_line] }
        sent := [], saved := [], closed := false }
  else
    match process_command h cmd_line session with
    | (some resp, s') =>
      { session :=
          if (str "221").isPrefixOf resp then s'
          else if (str "354").isPrefixOf resp then { s' with expecting_data := true }
          else s'
        sent := [resp]
        saved := []
        closed := (str "221").isPrefixOf resp }
    | (none, s') => { session := s', sent := [], saved := [], closed := false }

/-- The session object constructed by the stream handler that
`SmtpHoneypot::handle_client` selects for a connection on `port`: the
implicit-TLS branch (`port == 465` with an acceptor) enters
`handle_tls_stream`, which builds `SmtpSession::new(client_addr, false)` and
sets `tls_active`; every other branch enters `handle_plain_stream`, which
builds `SmtpSession::new(client_addr, false)`. -/
def initial_session (h : SmtpHoneypot) (client_addr : Str) (port : Nat) : SmtpSession :=
  if port = 465 ∧ h.tls_acceptor.isSome then
    { SmtpSession.new client_addr false with tls_active := true }
  else
    SmtpSession.new client_addr false

/-- The configuration-level condition under which `handle_client` treats a
port as STARTTLS-capable (`src/honeypot.rs`, the `port == 25 || port == 587`
branch): STARTTLS is enabled and a TLS certificate/key pair is loaded. -/
def starttls_configured (h : SmtpHoneypot) (port : Nat) : Bool :=
  (port == 25 || port == 587) && h.opt.starttls && h.tls_acceptor.isSome

/- ### `RateLimiter` (`src/ratelimiter.rs`) -/

/-- The eviction loop at the head of `RateLimiter::check_and_add`: pop
timestamps from the front while they are strictly older than 60 seconds
(`now.duration_since(time) > Duration::from_secs(60)`, with the saturating
subtraction of `Instant`s modelled by truncated `Nat` subtraction). -/
def evictOld (now : Nat) : List Nat → List Nat
  | [] => []
  | t :: rest => if 60 < now - t then evictOld now rest else t :: rest

/-- The per-address body of `RateLimiter::check_and_add`: evict, then either
reject (leaving the evicted queue) or record `now` and admit. -/
def check_and_add_entries (max_per_minute now : Nat) (entries : List Nat) :
    Bool × List Nat :=
  if max_per_minute ≤ (evictOld now entries).length then (false, evictOld now entries)
  else (true, evictOld now entries ++ [now])

/-- `RateLimiter` state: the `HashMap<SocketAddr, VecDeque<Instant>>` is
modelled as a total map defaulting to `[]` (`entry(addr).or_insert_with(new)`
reads the empty queue for an absent key). -/
structure RateLimiter where
  connections : Str → List Nat
  max_per_minute : Nat

/-- `RateLimiter::new`. -/
def RateLimiter.new (max_per_minute : Nat) : RateLimiter :=
  { connections := fun _ => [], max_per_minute := max_per_minute }

/-- `RateLimiter::check_and_add`: the admission decision plus the updated
state (the evicted/extended queue is written back for `addr` only). -/
def RateLimiter.check_and_add (rl : RateLimiter) (addr : Str) (now : Nat) :
    Bool × RateLimiter :=
  ((check_and_add_entries rl.max_per_minute now (rl.connections addr)).1,
   { connections := fun a =>
       if a = addr then (check_and_add_entries rl.max_per_minute now (rl.connections addr)).2
       else rl.connections a,
     max_per_minute := rl.max_per_minute })

/-- A sequence of admission checks for one address: feeds the queue through
`check_and_add_entries` at each time in `ts`, collecting results. -/
def runChecks (max : Nat) : List Nat → List Nat → List Bool × List Nat
  | entries, [] => ([], entries)
  | entries, t :: ts =>
    ((check_and_add_entries max t entries).1 ::
       (runChecks max (check_and_add_entries max t entries).2 ts).1,
     (runChecks max (check_and_add_entries max t entries).2 ts).2)

/-- The check times that were admitted (result `true`), in order. -/
def admittedTimes : List Nat → List Bool → List Nat
  | [], _ => []
  | _ :: _, [] => []
  | t :: ts, b :: bs => if b then t :: admittedTimes ts bs else admittedTimes ts bs

/-- Freshness at time `now`: within the trailing 60-second window. -/
def fresh (now s : Nat) : Bool := decide (now - s ≤ 60)

/-- Membership of a timestamp in the 60-second span `[T, T + 60]`. -/
def inWindow (T s : Nat) : Bool := decide (T ≤ s) && decide (s ≤ T + 60)

/- ### Concrete fixtures for closed evaluations -/

/-- A configuration with STARTTLS enabled, a TLS certificate/key pair
loaded, accepted domain `b.c`, no explicit mailboxes, open relay off. -/
def optBase : Opt :=
  { ports := [25, 465, 587], address := str "0.0.0.0", domains := [str "b.c"],
    valid_mailboxes := [], open_relay := false, helo := str "smtp.local",
    data_dir := some (str "/var/smtp-data"), max_connections_per_minute := 10,
    tls_cert := some (str "cert.pem"), tls_key := some (str "key.pem"),
    banner_delay := 0, starttls := true }

/-- The honeypot built from `optBase` (TLS acceptor present). -/
def hpBase : SmtpHoneypot :=
  { opt := optBase, valid_mailboxes := optBase.valid_mailboxes, tls_acceptor := some () }

/-- `hpBase` with the open-relay flag switched on. -/
def hpOpenRelay : SmtpHoneypot :=
  { opt := { optBase with open_relay := true },
    valid_mailboxes := optBase.valid_mailboxes, tls_acceptor := some () }

/-- A fresh plaintext session. -/
def sessionFresh : SmtpSession := SmtpSession.new (str "203.0.113.9:4444") false

/-- A session mid-transaction: sender and one recipient accepted. -/
def sessionReady : SmtpSession :=
  { sessionFresh with mail_from := some (str "a@b"), rcpt_to := [str "c@d"] }

/-- A session capturing a message body. -/
def sessionInData : SmtpSession := { sessionReady with expecting_data := true }

/-- A session about to terminate a captured message: HELO name `x`,
MAIL FROM `a@b`, one RCPT `c@d`, body `["line1", "line2"]`. -/
def sessionMsg : SmtpSession :=
  { sessionFresh with
      helo := some (str "x"), mail_from := some (str "a@b"),
      rcpt_to := [str "c@d"], data := [str "line1", str "line2"],
      expecting_data := true }

/-- Modelled from the spec: the claim's recipient policy, identical to
`is_valid_recipient` except that the domain is the substring after the
**last** `@` of the address ("substring after the last/only `@`"). -/
def claimed_recipient_policy (h : SmtpHoneypot) (recipient : Str) : Bool :=
  if h.opt.open_relay then true
  else if h.valid_mailboxes.any (fun mb => mb = recipient) then true
  else if recipient.contains '@' then
    h.opt.domains.any
      (fun d => d = (recipient.reverse.takeWhile (fun c => c != '@')).reverse)
  else false

/-- Does the response open with a three-digit status code? -/
def starts_with_three_digits (r : Str) : Bool :=
  match r with
  | a :: b :: c :: _ => a.isDigit && b.isDigit && c.isDigit
  | _ => false

/-- Does the response end with CRLF? -/
def ends_with_crlf (r : Str) : Bool := decide (r.reverse.take 2 = ['\n', '\r'])

/-- Filtering with a stronger predicate yields a sublist of filtering with a
weaker one. -/
lemma filter_sublist_filter {p q : Nat → Bool} (h : ∀ a, p a = true → q a = true)
    (l : List Nat) : (l.filter p).Sublist (l.filter q) := by
  induction l with
  | nil => exact List.Sublist.slnil
  | cons a t ih =>
    by_cases hp : p a = true
    · rw [List.filter_cons, if_pos hp, List.filter_cons, if_pos (h a hp)]
      exact List.Sublist.cons₂ a ih
    · rw [List.filter_cons, if_neg hp]
      by_cases hq : q a = true
      · rw [List.filter_cons, if_pos hq]
        exact List.Sublist.cons a ih
      · rw [List.filter_cons, if_neg hq]
        exact ih

/-- Eviction only removes stale entries: a sublist made of fresh timestamps
survives `evictOld`. -/
lemma sublist_evictOld (now : Nat) :
    ∀ (E X : List Nat), X.Sublist E → (∀ x ∈ X, now - x ≤ 60) →
      X.Sublist (evictOld now E) := by
  intro E
  induction E with
  | nil =>
    intro X h _
    simpa [evictOld] using h
  | cons e E' ih =>
    intro X h hf
    by_cases he : 60 < now - e
    · simp only [evictOld, if_pos he]
      cases h with
      | cons _ h' => exact ih X h' hf
      | cons₂ _ h' => exact absurd (hf e (List.mem_cons_self e _)) (by omega)
    · simp only [evictOld, if_neg he]
      exact h

/-- On a time-ordered queue, the front-of-queue eviction loop removes exactly
the timestamps strictly older than 60 seconds. -/
lemma evictOld_eq_filter (now : Nat) :
    ∀ E : List Nat, E.Pairwise (· ≤ ·) → evictOld now E = E.filter (fresh now) := by
  intro E
  induction E with
  | nil => intro _; rfl
  | cons t E' ih =>
    intro hs
    rcases List.pairwise_cons.mp hs with ⟨hle, hs'⟩
    by_cases h : 60 < now - t
    · have hft : fresh now t = false := by
        simp only [fresh, decide_eq_false_iff_not]
        omega
      simp only [evictOld, if_pos h, List.filter_cons, hft, Bool.false_eq_true, if_false]
      exact ih hs'
    · have hft : fresh now t = true := by
        simp only [fresh, decide_eq_true_eq]
        omega
      have hall : ∀ u ∈ E', fresh now u = true := by
        intro u hu
        have h1 : t ≤ u := hle u hu
        simp only [fresh, decide_eq_true_eq]
        omega
      simp only [evictOld, if_neg h, List.filter_cons, hft, if_true]
      rw [List.filter_eq_self.mpr hall]

/-- Induction workhorse for the 60-second-window admission bound: running the
checks in `ts` (all at or after time `b`, nondecreasing) from a queue `E`
that contains the still-fresh admitted times `A.filter (fresh b)` keeps every
60-second span's admitted count at or below `max`. -/
lemma window_bound_aux (max : Nat) :
    ∀ ts : List Nat, ts.Pairwise (· ≤ ·) →
      ∀ (E A : List Nat) (b : Nat),
        (∀ t ∈ ts, b ≤ t) →
        (∀ T, (A.filter (inWindow T)).length ≤ max) →
        (A.filter (fresh b)).Sublist E →
        ∀ T, ((A ++ admittedTimes ts (runChecks max E ts).1).filter (inWindow T)).length ≤ max := by
  intro ts
  induction ts with
  | nil =>
    intro _ E A b _ hA _ T
    simpa [runChecks, admittedTimes] using hA T
  | cons t' ts' ih =>
    intro hsort E A b hge hA hsub T
    have hb : b ≤ t' := hge t' (List.mem_cons_self _ _)
    rcases List.pairwise_cons.mp hsort with ⟨hle, hsort'⟩
    have h1 : (A.filter (fresh t')).Sublist (A.filter (fresh b)) := by
      apply filter_sublist_filter
      intro a ha
      simp only [fresh, decide_eq_true_eq] at ha ⊢
      omega
    have h2 : (A.filter (fresh t')).Sublist (evictOld t' E) := by
      apply sublist_evictOld t' E _ (h1.trans hsub)
      intro x hx
      have hx2 := (List.mem_filter.mp hx).2
      simpa [fresh] using hx2
    by_cases hfull : max ≤ (evictOld t' E).length
    · have hrun : (runChecks max E (t' :: ts')).1
          = false :: (runChecks max (evictOld t' E) ts').1 := by
        simp [runChecks, check_and_add_entries, hfull]
      rw [hrun]
      simp only [admittedTimes, Bool.false_eq_true, if_false]
      exact ih hsort' (evictOld t' E) A t' hle hA h2 T
    · have hlt : (evictOld t' E).length < max := Nat.lt_of_not_le hfull
      have hrun : (runChecks max E (t' :: ts')).1
          = true :: (runChecks max (evictOld t' E ++ [t']) ts').1 := by
        simp [runChecks, check_and_add_entries, hfull]
      have hA' : ∀ T₁, (((A ++ [t']).filter (inWindow T₁)).length ≤ max) := by
        intro T₁
        rw [List.filter_append]
        by_cases hw : inWindow T₁ t' = true
        · have himp : ∀ a, inWindow T₁ a = true → fresh t' a = true := by
            intro a ha
            simp only [inWindow, fresh, Bool.and_eq_true, decide_eq_true_eq] at hw ha ⊢
            omega
          have hlenA : (A.filter (inWindow T₁)).length ≤ (evictOld t' E).length :=
            ((filter_sublist_filter himp A).trans h2).length_le
          have hsing : List.filter (inWindow T₁) [t'] = [t'] := by
            rw [List.filter_cons, if_pos hw]
            rfl
          rw [hsing, List.length_append, List.length_cons, List.length_nil]
          omega
        · have hsing : List.filter (inWindow T₁) [t'] = [] := by
            rw [List.filter_cons, if_neg hw]
            rfl
          rw [hsing, List.length_append, List.length_nil]
          have := hA T₁
          omega
      have hft' : fresh t' t' = true := by simp [fresh]
      have hsub' : ((A ++ [t']).filter (fresh t')).Sublist (evictOld t' E ++ [t']) := by
        rw [List.filter_append]
        simp only [List.filter_cons, hft', if_true, List.filter_nil]
        exact h2.append (List.Sublist.refl _)
      have hrec := ih hsort' (evictOld t' E ++ [t']) (A ++ [t']) t' hle hA' hsub' T
      rw [hrun]
      simp only [admittedTimes, if_true]
      have hassoc : A ++ t' :: admittedTimes ts' (runChecks max (evictOld t' E ++ [t']) ts').1
          = (A ++ [t']) ++ admittedTimes ts' (runChecks max (evictOld t' E ++ [t']) ts').1 := by
        simp
      rw [hassoc]
      exact hrec

/-- C1. `RateLimiter::check_and_add` with cap `max_per_minute`:
(1) on a time-ordered queue the per-call front eviction removes exactly the
timestamps older than 60 seconds (so one slot frees as soon as an entry ages
past 60 seconds), and (2) for every nondecreasing sequence of admission
checks for one address starting from the empty queue, at most
`max_per_minute` checks whose times lie in any 60-second span `[T, T + 60]`
return `true`. -/
theorem claim_C1_rate_limiter :
    (∀ (now : Nat) (E : List Nat), E.Pairwise (· ≤ ·) →
      evictOld now E = E.filter (fresh now)) ∧
    (∀ (max T : Nat) (ts : List Nat), ts.Pairwise (· ≤ ·) →
      ((admittedTimes ts (runChecks max [] ts).1).filter (inWindow T)).length ≤ max) := by
  constructor
  · exact fun now E hs => evictOld_eq_filter now E hs
  · intro max T ts hs
    have h := window_bound_aux max ts hs [] [] 0 (fun t _ => Nat.zero_le t)
      (fun T₁ => by simp) (by simp)
    simpa using h T

theorem claim_C1_rate_limiter_witness :
    evictOld 100 [30, 50] = [30, 50].filter (fresh 100) ∧
    ((admittedTimes [0, 10, 20, 75] (runChecks 2 [] [0, 10, 20, 75]).1).filter
        (inWindow 0)).length ≤ 2 :=
  ⟨claim_C1_rate_limiter.1 100 [30, 50] (by decide),
   claim_C1_rate_limiter.2 2 0 [0, 10, 20, 75] (by decide)⟩

/-- C9. State invariant of `RateLimiter::check_and_add`: starting from a
state whose queues are time-ordered and whose checked address holds only past
timestamps, after the check every queue is still time-ordered, the checked
address's queue holds no timestamp older than 60 seconds relative to the
check time, and every other address's queue is untouched (lazy eviction). -/
theorem claim_C9_state_invariant (rl : RateLimiter) (addr : Str) (now : Nat)
    (hsorted : ∀ a, (rl.connections a).Pairwise (· ≤ ·))
    (hpast : ∀ e ∈ rl.connections addr, e ≤ now) :
    (∀ a, (((rl.check_and_add addr now).2.connections a).Pairwise (· ≤ ·))) ∧
    (∀ e ∈ (rl.check_and_add addr now).2.connections addr, now - e ≤ 60) ∧
    (∀ a, a ≠ addr → (rl.check_and_add addr now).2.connections a = rl.connections a) := by
  have hEv : evictOld now (rl.connections addr)
      = (rl.connections addr).filter (fresh now) :=
    evictOld_eq_filter now _ (hsorted addr)
  have hmemEv : ∀ e ∈ (rl.connections addr).filter (fresh now), e ≤ now ∧ now - e ≤ 60 := by
    intro e he
    rcases List.mem_filter.mp he with ⟨hmem, hfr⟩
    refine ⟨hpast e hmem, ?_⟩
    simpa [fresh] using hfr
  have hpwEv : ((rl.connections addr).filter (fresh now)).Pairwise (· ≤ ·) :=
    List.Pairwise.sublist (List.filter_sublist _) (hsorted addr)
  have hpwNew : (((rl.connections addr).filter (fresh now)) ++ [now]).Pairwise (· ≤ ·) := by
    rw [List.pairwise_append]
    refine ⟨hpwEv, List.pairwise_singleton _ _, ?_⟩
    intro x hx y hy
    rcases List.mem_singleton.mp hy with rfl
    exact (hmemEv x hx).1
  refine ⟨?_, ?_, ?_⟩
  · intro a
    by_cases ha : a = addr
    · subst ha
      simp only [RateLimiter.check_and_add, check_and_add_entries, hEv, if_pos rfl]
      by_cases hfull : rl.max_per_minute ≤ ((rl.connections a).filter (fresh now)).length
      · simpa [hfull] using hpwEv
      · simpa [hfull] using hpwNew
    · simpa [RateLimiter.check_and_add, ha] using hsorted a
  · intro e he
    simp only [RateLimiter.check_and_add, check_and_add_entries, hEv, if_pos rfl] at he
    by_cases hfull : rl.max_per_minute ≤ ((rl.connections addr).filter (fresh now)).length
    · rw [if_pos hfull] at he
      exact (hmemEv e he).2
    · rw [if_neg hfull] at he
      rcases List.mem_append.mp he with h | h
      · exact (hmemEv e h).2
      · rcases List.mem_singleton.mp h with rfl
        omega
  · intro a ha
    simp [RateLimiter.check_and_add, ha]

/- ### Dispatch lemmas for `process_command` -/

/-- Any line whose first token uppercases to `DATA` hits the `DATA` arm. -/
lemma process_command_data (h : SmtpHoneypot) (s : SmtpSession) (line : Str)
    (p0 : Str) (rest : List Str)
    (hsp : splitWhitespace line = p0 :: rest) (hp0 : toUppercase p0 = str "DATA") :
    process_command h line s =
      (if s.mail_from.isNone || s.rcpt_to.isEmpty then
        (some (str "503 Bad sequence of commands\r\n"), s)
       else (some (str "354 Start mail input; end with <CRLF>.<CRLF>\r\n"), s)) := by
  have n1 : ¬(str "DATA" = str "HELO" ∨ str "DATA" = str "EHLO") := by decide
  have n2 : str "DATA" ≠ str "STARTTLS" := by decide
  have n3 : str "DATA" ≠ str "MAIL" := by decide
  have n4 : str "DATA" ≠ str "RCPT" := by decide
  simp only [process_command, hsp, hp0]
  rw [if_neg n1, if_neg n2, if_neg n3, if_neg n4, if_pos trivial]

/-- Any line whose first token uppercases to `RSET` hits the `RSET` arm. -/
lemma process_command_rset (h : SmtpHoneypot) (s : SmtpSession) (line : Str)
    (p0 : Str) (rest : List Str)
    (hsp : splitWhitespace line = p0 :: rest) (hp0 : toUppercase p0 = str "RSET") :
    process_command h line s = (some (str "250 OK\r\n"), SmtpSession.reset s) := by
  have n1 : ¬(str "RSET" = str "HELO" ∨ str "RSET" = str "EHLO") := by decide
  have n2 : str "RSET" ≠ str "STARTTLS" := by decide
  have n3 : str "RSET" ≠ str "MAIL" := by decide
  have n4 : str "RSET" ≠ str "RCPT" := by decide
  have n5 : str "RSET" ≠ str "DATA" := by decide
  have n6 : str "RSET" ≠ str "AUTH" := by decide
  have n7 : str "RSET" ≠ str "QUIT" := by decide
  simp only [process_command, hsp, hp0]
  rw [if_neg n1, if_neg n2, if_neg n3, if_neg n4, if_neg n5, if_neg n6, if_neg n7,
    if_pos trivial]

/-- Any line splitting into a first token that uppercases to `RCPT` and a
second token whose uppercase starts with `TO:` hits the recipient check. -/
lemma process_command_rcpt (h : SmtpHoneypot) (s : SmtpSession) (line : Str)
    (p0 p1 : Str) (rest : List Str)
    (hsp : splitWhitespace line = p0 :: p1 :: rest)
    (hp0 : toUppercase p0 = str "RCPT")
    (hp1 : (str "TO:").isPrefixOf (toUppercase p1) = true) :
    process_command h line s =
      (if is_valid_recipient h (trimMatches '>' (trimMatches '<' (p1.drop 3))) then
        (some (str "250 OK\r\n"),
         { s with rcpt_to := s.rcpt_to ++ [trimMatches '>' (trimMatches '<' (p1.drop 3))] })
       else (some (str "550 No such user\r\n"), s)) := by
  have n1 : ¬(str "RCPT" = str "HELO" ∨ str "RCPT" = str "EHLO") := by decide
  have n2 : str "RCPT" ≠ str "STARTTLS" := by decide
  have n3 : str "RCPT" ≠ str "MAIL" := by decide
  simp only [process_command, hsp, hp0]
  rw [if_neg n1, if_neg n2, if_neg n3, if_pos trivial, if_pos hp1]

/-- `List.any` with an equality test is membership. -/
lemma any_eq_mem (l : List Str) (r : Str) : l.any (fun mb => mb = r) = true ↔ r ∈ l := by
  constructor
  · intro h
    rcases List.any_eq_true.mp h with ⟨x, hx, hdec⟩
    have hxr : x = r := of_decide_eq_true hdec
    exact hxr ▸ hx
  · intro h
    exact List.any_eq_true.mpr ⟨r, h, by simp⟩

theorem claim_C9_state_invariant_witness :
    ((RateLimiter.new 2).check_and_add (str "1.2.3.4:5") 70).2.connections (str "9.9.9.9:9")
      = (RateLimiter.new 2).connections (str "9.9.9.9:9") :=
  (claim_C9_state_invariant (RateLimiter.new 2) (str "1.2.3.4:5") 70
      (fun _ => List.Pairwise.nil) (fun _ h => absurd h (by simp [RateLimiter.new]))).2.2
    (str "9.9.9.9:9") (by decide)

/-- C2. Code bug: the spec requires the HELO/EHLO reply to advertise
`250-STARTTLS` when STARTTLS is configured for the port, a certificate is
loaded, and TLS is not yet active; but `handle_plain_stream` always builds
`SmtpSession::new(client_addr, false)`, so on port 25 with `--starttls` and
a certificate the session's `starttls_enabled` is `false` and the EHLO
response carries no `250-STARTTLS` line. -/
theorem claim_C2_starttls_advertisement_bug :
    starttls_configured hpBase 25 = true ∧
    (initial_session hpBase (str "203.0.113.9:4444") 25).tls_active = false ∧
    (process_command hpBase (str "EHLO test")
        (initial_session hpBase (str "203.0.113.9:4444") 25)).1
      = some (str "250-smtp.local Hello test\r\n250 HELP\r\n") ∧
    hasSubstring (str "250-STARTTLS")
        ((process_command hpBase (str "EHLO test")
            (initial_session hpBase (str "203.0.113.9:4444") 25)).1.getD [])
      = false := by
  decide

/-- C3. Code bug: the spec requires STARTTLS on a STARTTLS-capable
plaintext session to be answered `220` followed by an in-place handshake
preserving the session; but the session reaching `process_command` always
has `starttls_enabled = false`, so the command is answered
`454 TLS not available` with the session unchanged, and no upgrade path is
ever taken. -/
theorem claim_C3_starttls_upgrade_bug :
    starttls_configured hpBase 25 = true ∧
    (initial_session hpBase (str "203.0.113.9:4444") 25).tls_active = false ∧
    (initial_session hpBase (str "203.0.113.9:4444") 25).starttls_enabled = false ∧
    process_command hpBase (str "STARTTLS")
        (initial_session hpBase (str "203.0.113.9:4444") 25)
      = (some (str "454 TLS not available\r\n"),
         initial_session hpBase (str "203.0.113.9:4444") 25) := by
  decide

/-- C4 counterexample: for `x@y@b.c` with accepted domain `b.c`, the claim's
last-`@` rule accepts, but `is_valid_recipient` (via `split_once`, the first
`@`) rejects, and `RCPT TO:<x@y@b.c>` is answered `550`. -/
theorem claim_C4_counterexample :
    is_valid_recipient hpBase (str "x@y@b.c") = false ∧
    claimed_recipient_policy hpBase (str "x@y@b.c") = true ∧
    process_command hpBase (str "RCPT TO:<x@y@b.c>") sessionFresh
      = (some (str "550 No such user\r\n"), sessionFresh) := by
  decide

/-- C4 (amended). Recipient acceptance: accept iff open-relay is on, or the
address is an explicitly valid mailbox, or the substring after the **first**
`@` is an accepted domain; and with open-relay on, every well-formed
`RCPT TO:` line is answered `250 OK` regardless of the lists. -/
theorem claim_C4_recipient_policy :
    (∀ (h : SmtpHoneypot) (r : Str),
      is_valid_recipient h r = true ↔
        (h.opt.open_relay = true ∨ r ∈ h.valid_mailboxes ∨
         (∃ p, splitOnce '@' r = some p ∧ p.2 ∈ h.opt.domains))) ∧
    (∀ (h : SmtpHoneypot) (s : SmtpSession) (line : Str) (p0 p1 : Str) (rest : List Str),
      h.opt.open_relay = true →
      splitWhitespace line = p0 :: p1 :: rest →
      toUppercase p0 = str "RCPT" →
      (str "TO:").isPrefixOf (toUppercase p1) = true →
      (process_command h line s).1 = some (str "250 OK\r\n")) := by
  constructor
  · intro h r
    unfold is_valid_recipient
    split_ifs with h1 h2
    · simp [h1]
    · simp [any_eq_mem _ _ |>.mp h2]
    · have hmem : r ∉ h.valid_mailboxes := fun hr => h2 ((any_eq_mem _ _).mpr hr)
      cases hsp : splitOnce '@' r with
      | none => simp [h1, hmem, hsp]
      | some p => simp [h1, hmem, hsp, any_eq_mem]
  · intro h s line p0 p1 rest hopen hsp hp0 hp1
    have hval : is_valid_recipient h (trimMatches '>' (trimMatches '<' (p1.drop 3))) = true := by
      unfold is_valid_recipient
      simp [hopen]
    rw [process_command_rcpt h s line p0 p1 rest hsp hp0 hp1, if_pos hval]

theorem claim_C4_recipient_policy_witness :
    (is_valid_recipient hpOpenRelay (str "u@q.z") = true ↔
      (hpOpenRelay.opt.open_relay = true ∨ str "u@q.z" ∈ hpOpenRelay.valid_mailboxes ∨
       (∃ p, splitOnce '@' (str "u@q.z") = some p ∧ p.2 ∈ hpOpenRelay.opt.domains))) ∧
    (process_command hpOpenRelay (str "RCPT TO:<u@q.z>") sessionFresh).1
      = some (str "250 OK\r\n") :=
  ⟨claim_C4_recipient_policy.1 hpOpenRelay (str "u@q.z"),
   claim_C4_recipient_policy.2 hpOpenRelay sessionFresh (str "RCPT TO:<u@q.z>")
     (str "RCPT") (str "TO:<u@q.z>") [] rfl (by decide) (by decide) (by decide)⟩

/-- C5. DATA gating, at the level of one handler-loop iteration: with the
session not capturing a body and a line whose first token uppercases to
`DATA`, the reply is `503` with the session unchanged when `mail_from` is
unset or `rcpt_to` is empty, and otherwise `354` with `expecting_data`
switched on (by the loop's `354` post-check). -/
theorem claim_C5_data_gate (h : SmtpHoneypot) (d : Str) (s : SmtpSession) (line : Str)
    (p0 : Str) (rest : List Str)
    (hexp : s.expecting_data = false)
    (hsp : splitWhitespace (trimEnd line) = p0 :: rest)
    (hp0 : toUppercase p0 = str "DATA") :
    ((s.mail_from = none ∨ s.rcpt_to = []) →
      handle_line h d s line =
        { session := s, sent := [str "503 Bad sequence of commands\r\n"],
          saved := [], closed := false }) ∧
    (s.mail_from ≠ none → s.rcpt_to ≠ [] →
      handle_line h d s line =
        { session := { s with expecting_data := true },
          sent := [str "354 Start mail input; end with <CRLF>.<CRLF>\r\n"],
          saved := [], closed := false }) := by
  have hpc := process_command_data h s (trimEnd line) p0 rest hsp hp0
  constructor
  · intro hcase
    have hcond : (s.mail_from.isNone || s.rcpt_to.isEmpty) = true := by
      rcases hcase with h1 | h1 <;> simp [h1]
    rw [if_pos hcond] at hpc
    have c1 : (str "221").isPrefixOf (str "503 Bad sequence of commands\r\n") = false := by
      decide
    have c2 : (str "354").isPrefixOf (str "503 Bad sequence of commands\r\n") = false := by
      decide
    simp only [handle_line, hexp, Bool.false_eq_true, if_false, hpc, c1, c2]
  · intro h1 h2
    have hcond : ¬((s.mail_from.isNone || s.rcpt_to.isEmpty) = true) := by
      simp only [Bool.or_eq_true, Option.isNone_iff_eq_none, List.isEmpty_iff]
      rintro (hc | hc)
      · exact h1 hc
      · exact h2 hc
    rw [if_neg hcond] at hpc
    have c1 : (str "221").isPrefixOf
        (str "354 Start mail input; end with <CRLF>.<CRLF>\r\n") = false := by decide
    have c2 : (str "354").isPrefixOf
        (str "354 Start mail input; end with <CRLF>.<CRLF>\r\n") = true := by decide
    simp only [handle_line, hexp, Bool.false_eq_true, if_false, hpc, c1, c2, if_true]

theorem claim_C5_data_gate_witness :
    handle_line hpBase (str "2026-01-01 00:00:00") sessionFresh (str "DATA\r\n")
      = { session := sessionFresh, sent := [str "503 Bad sequence of commands\r\n"],
          saved := [], closed := false } ∧
    handle_line hpBase (str "2026-01-01 00:00:00") sessionReady (str "DATA\r\n")
      = { session := { sessionReady with expecting_data := true },
          sent := [str "354 Start mail input; end with <CRLF>.<CRLF>\r\n"],
          saved := [], closed := false } :=
  ⟨(claim_C5_data_gate hpBase (str "2026-01-01 00:00:00") sessionFresh (str "DATA\r\n")
      (str "DATA") [] rfl rfl (by decide)).1 (Or.inl rfl),
   (claim_C5_data_gate hpBase (str "2026-01-01 00:00:00") sessionReady (str "DATA\r\n")
      (str "DATA") [] rfl rfl (by decide)).2 (by decide) (by decide)⟩

/-- C6 counterexample: while capturing a body, the raw line `"x \r\n"`
(content `"x "` before the terminator) is stored as `"x"` — the handler
trims all trailing whitespace, not just the line terminator, so the
stored line is not character-for-character the incoming one. -/
theorem claim_C6_counterexample :
    (handle_line hpBase (str "2026-01-01 00:00:00") sessionInData (str "x \r\n")).session.data
      = [str "x"] ∧
    str "x" ≠ str "x " := by
  decide

/-- C6 (amended). While `expecting_data` is true an incoming line bypasses
command dispatch; the handler first strips trailing whitespace (including
the CRLF terminator): if the stripped line is exactly `.`, it clears
`expecting_data`, invokes persistence of the captured message, resets the
transaction and emits `250 OK: Message accepted`; otherwise the stripped
line (not the raw line) is appended to `data_lines` and no response is
sent. -/
theorem claim_C6_body_capture (h : SmtpHoneypot) (d : Str) (s : SmtpSession) (line : Str)
    (hexp : s.expecting_data = true) :
    (trimEnd line = str "." →
      handle_line h d s line =
        { session := SmtpSession.reset { s with expecting_data := false }
          sent := [str "250 OK: Message accepted\r\n"]
          saved := [save_email_data h d s.client_addr { s with expecting_data := false }]
          closed := false }) ∧
    (trimEnd line ≠ str "." →
      handle_line h d s line =
        { session := { s with data := s.data ++ [trimEnd line] }
          sent := [], saved := [], closed := false }) := by
  constructor
  · intro hdot
    simp only [handle_line, hexp, if_true, hdot, if_pos rfl]
  · intro hdot
    simp only [handle_line, hexp, if_true, if_neg hdot]

theorem claim_C6_body_capture_witness :
    handle_line hpBase (str "2026-01-01 00:00:00") sessionInData (str "body line\r\n")
      = { session := { sessionInData with data := sessionInData.data ++ [str "body line"] }
          sent := [], saved := [], closed := false } :=
  (claim_C6_body_capture hpBase (str "2026-01-01 00:00:00") sessionInData
      (str "body line\r\n") rfl).2 (by decide)

/-- C7. Round-trip: terminating a captured message (HELO `x`, MAIL FROM `a`,
one recipient `r`, body `[l1, l2]`) with a lone-dot line persists an
artifact holding exactly the `X-Honeypot-HELO`/`-MailFrom`/`-RcptTo`
headers, a blank line and the body joined by CRLF, answers
`250 OK: Message accepted`, and leaves `mail_from`, `rcpt_to`, `data_lines`
empty. -/
theorem claim_C7_roundtrip (h : SmtpHoneypot) (dir d addr x a r l1 l2 : Str)
    (s : SmtpSession)
    (hdir : h.opt.data_dir = some dir)
    (haddr : s.client_addr = addr) (hhelo : s.helo = some x)
    (hfrom : s.mail_from = some a) (hrcpt : s.rcpt_to = [r])
    (hdata : s.data = [l1, l2]) (hexp : s.expecting_data = true) :
    (handle_line h d s (str ".\r\n")).saved
      = [some (str "X-Honeypot-Client: " ++ addr ++ str "\r\n" ++
               (str "X-Honeypot-Date: " ++ d ++ str "\r\n") ++
               (str "X-Honeypot-HELO: " ++ x ++ str "\r\n") ++
               (str "X-Honeypot-MailFrom: " ++ a ++ str "\r\n") ++
               (str "X-Honeypot-RcptTo: " ++ r ++ str "\r\n") ++
               str "\r\n" ++ (l1 ++ str "\r\n" ++ l2))] ∧
    (handle_line h d s (str ".\r\n")).sent = [str "250 OK: Message accepted\r\n"] ∧
    (handle_line h d s (str ".\r\n")).session.mail_from = none ∧
    (handle_line h d s (str ".\r\n")).session.rcpt_to = [] ∧
    (handle_line h d s (str ".\r\n")).session.data = [] := by
  have hline : trimEnd (str ".\r\n") = str "." := by decide
  have hsaved : save_email_data h d s.client_addr { s with expecting_data := false }
      = some (str "X-Honeypot-Client: " ++ addr ++ str "\r\n" ++
              (str "X-Honeypot-Date: " ++ d ++ str "\r\n") ++
              (str "X-Honeypot-HELO: " ++ x ++ str "\r\n") ++
              (str "X-Honeypot-MailFrom: " ++ a ++ str "\r\n") ++
              (str "X-Honeypot-RcptTo: " ++ r ++ str "\r\n") ++
              str "\r\n" ++ (l1 ++ str "\r\n" ++ l2)) := by
    simp only [save_email_data, hdir, email_content, haddr, hhelo, hfrom, hrcpt, hdata]
    simp [join_sep, List.append_assoc]
  refine ⟨?_, ?_, ?_, ?_, ?_⟩ <;>
    simp only [handle_line, hexp, if_true, hline, if_pos rfl, hsaved, SmtpSession.reset]

theorem claim_C7_roundtrip_witness :
    (handle_line hpBase (str "2026-01-01 00:00:00") sessionMsg (str ".\r\n")).saved
      = [some (str "X-Honeypot-Client: " ++ str "203.0.113.9:4444" ++ str "\r\n" ++
               (str "X-Honeypot-Date: " ++ str "2026-01-01 00:00:00" ++ str "\r\n") ++
               (str "X-Honeypot-HELO: " ++ str "x" ++ str "\r\n") ++
               (str "X-Honeypot-MailFrom: " ++ str "a@b" ++ str "\r\n") ++
               (str "X-Honeypot-RcptTo: " ++ str "c@d" ++ str "\r\n") ++
               str "\r\n" ++ (str "line1" ++ str "\r\n" ++ str "line2"))] ∧
    (handle_line hpBase (str "2026-01-01 00:00:00") sessionMsg (str ".\r\n")).sent
      = [str "250 OK: Message accepted\r\n"] ∧
    (handle_line hpBase (str "2026-01-01 00:00:00") sessionMsg (str ".\r\n")).session.mail_from
      = none ∧
    (handle_line hpBase (str "2026-01-01 00:00:00") sessionMsg (str ".\r\n")).session.rcpt_to
      = [] ∧
    (handle_line hpBase (str "2026-01-01 00:00:00") sessionMsg (str ".\r\n")).session.data
      = [] :=
  claim_C7_roundtrip hpBase (str "/var/smtp-data") (str "2026-01-01 00:00:00")
    (str "203.0.113.9:4444") (str "x") (str "a@b") (str "c@d")
    (str "line1") (str "line2") sessionMsg rfl rfl rfl rfl rfl rfl rfl

/-- C8. `RSET` (and the internal reset after a completed message, the same
`SmtpSession::reset`): answered `250 OK`, clearing `mail_from`, `rcpt_to`,
`data_lines` and `expecting_data` while leaving `helo_name`, `tls_active`,
`starttls_enabled` and the peer address unchanged. -/
theorem claim_C8_rset_frame (h : SmtpHoneypot) (s : SmtpSession) (line : Str)
    (p0 : Str) (rest : List Str)
    (hsp : splitWhitespace line = p0 :: rest) (hp0 : toUppercase p0 = str "RSET") :
    process_command h line s = (some (str "250 OK\r\n"), SmtpSession.reset s) ∧
    (SmtpSession.reset s).mail_from = none ∧
    (SmtpSession.reset s).rcpt_to = [] ∧
    (SmtpSession.reset s).data = [] ∧
    (SmtpSession.reset s).expecting_data = false ∧
    (SmtpSession.reset s).helo = s.helo ∧
    (SmtpSession.reset s).tls_active = s.tls_active ∧
    (SmtpSession.reset s).starttls_enabled = s.starttls_enabled ∧
    (SmtpSession.reset s).client_addr = s.client_addr :=
  ⟨process_command_rset h s line p0 rest hsp hp0, rfl, rfl, rfl, rfl, rfl, rfl, rfl, rfl⟩

theorem claim_C8_rset_frame_witness :
    process_command hpBase (str "RSET") sessionReady
      = (some (str "250 OK\r\n"), SmtpSession.reset sessionReady) ∧
    (SmtpSession.reset sessionReady).mail_from = none ∧
    (SmtpSession.reset sessionReady).helo = sessionReady.helo :=
  ⟨(claim_C8_rset_frame hpBase sessionReady (str "RSET") (str "RSET") [] rfl rfl).1,
   (claim_C8_rset_frame hpBase sessionReady (str "RSET") (str "RSET") [] rfl rfl).2.1,
   (claim_C8_rset_frame hpBase sessionReady (str "RSET") (str "RSET") [] rfl rfl).2.2.2.2.2.1⟩

/-- A response opening with a digit is nonempty. -/
lemma swtd_ne_nil {r : Str} (h : starts_with_three_digits r = true) : r ≠ [] := by
  intro he
  subst he
  simp [starts_with_three_digits] at h

/-- Appending on the right preserves a three-digit opening. -/
lemma swtd_append {A : Str} (h : starts_with_three_digits A = true) (z : Str) :
    starts_with_three_digits (A ++ z) = true := by
  match A, h with
  | a :: b :: c :: t, h =>
    simpa [starts_with_three_digits, List.cons_append] using h
  | [], h => simp [starts_with_three_digits] at h
  | [a], h => simp [starts_with_three_digits] at h
  | [a, b], h => simp [starts_with_three_digits] at h

/-- Appending on the left preserves a trailing CRLF. -/
lemma ends_with_crlf_append (A : Str) {B : Str} (h : ends_with_crlf B = true) :
    ends_with_crlf (A ++ B) = true := by
  have hB : B.reverse.take 2 = ['\n', '\r'] := of_decide_eq_true h
  have hlen : 2 ≤ B.reverse.length := by
    have h2 := congrArg List.length hB
    rw [List.length_take] at h2
    simp only [List.length_cons, List.length_nil] at h2
    omega
  unfold ends_with_crlf
  rw [List.reverse_append, List.take_append_of_le_length hlen, hB]
  rfl

set_option maxHeartbeats 2000000 in
/-- C10. `process_command` is total: every line (empty included), in every
session state, yields `Some` response that is nonempty, opens with a
three-digit status code, and ends with CRLF. -/
theorem claim_C10_total_responses (h : SmtpHoneypot) (line : Str) (s : SmtpSession) :
    ∃ resp, (process_command h line s).1 = some resp ∧ resp ≠ [] ∧
      starts_with_three_digits resp = true ∧ ends_with_crlf resp = true := by
  rcases hsp : splitWhitespace line with _ | ⟨p0, rest⟩
  · refine ⟨str "500 Syntax error\r\n", ?_, by decide, by decide, by decide⟩
    simp [process_command, hsp]
  · rcases rest with _ | ⟨p1, rest'⟩ <;>
      · simp only [process_command, hsp]
        split_ifs <;>
          first
            | exact ⟨_, rfl, by decide, by decide, by decide⟩
            | exact ⟨_, rfl,
                swtd_ne_nil (swtd_append (swtd_append (swtd_append (swtd_append
    (swtd_append (swtd_append (by decide) _) _) _) _) _) _),
                swtd_append (swtd_append (swtd_append (swtd_append
    (swtd_append (swtd_append (by decide) _) _) _) _) _) _,
                ends_with_crlf_append _ (by decide)⟩
